import Mathlib

/-!
Verification of the decentrathon taxi-analytics enrichment pipeline.

The definitions below are a shallow embedding of the Python source:
- src/backend/data_processor.py (classifier rules, per-record enrichment,
  batch driver),
- src/database_service.py (aggregate metrics, metric persistence),
- src/backend/config.py (BATCH_SIZE).

Python floats are modelled as rationals; Python dicts carrying heterogeneous
JSON-like values are modelled by the inductive `PyVal`; a raised exception is
an `Except.error` carrying the message string.
-/

namespace Decentrathon

/-- Model of a Python/JSON-like value: number, string, boolean, dict
(constructor `obj`, an ordered key/value list) or list (`arr`).  Used for the
per-record result dictionaries built in data_processor.py and the metric
values of database_service.py. -/
inductive PyVal where
  | num (q : ℚ)
  | str (s : String)
  | bool (b : Bool)
  | obj (fields : List (String × PyVal))
  | arr (elems : List PyVal)

/-- Key lookup in a `PyVal.obj` dict (first match); `none` on non-dicts or
missing keys. -/
def pyLookup (key : String) : PyVal → Option PyVal
  | .obj fields => fields.lookup key
  | _ => none

/-- Model of `d[key] = v` on the association list underlying a Python dict:
an existing key is overwritten in place, a new key is appended at the end. -/
def setKey : List (String × PyVal) → String → PyVal → List (String × PyVal)
  | [], k, v => [(k, v)]
  | (k', v') :: rest, k, v =>
      if k' = k then (k, v) :: rest else (k', v') :: setKey rest k v

/-- Model of `result[key] = v` from the merge steps of `process_gps_batch` /
`process_taxi_batch` (data_processor.py lines 98-103, 143-151): succeeds on a
dict, raises TypeError on any other value (list, number, string, boolean),
exactly as CPython item assignment does. -/
def pySetItem : PyVal → String → PyVal → Except String PyVal
  | .obj fields, k, v => .ok (.obj (setKey fields k v))
  | _, _, _ => .error "TypeError: item assignment on non-dict value"

/-- Embeds one row of the GPS input table, i.e. the fields read by
`process_gps_batch`.  `randomized_id` is optional because the code reads it
with `row.get('randomized_id', idx)`. -/
structure GPSRow where
  randomized_id : Option String
  lat : ℚ
  lng : ℚ
  alt : ℚ
  spd : ℚ
  azm : ℚ
deriving DecidableEq

/-- Embeds one row of the taxi input table, i.e. the fields read by
`process_taxi_batch`. -/
structure TaxiRow where
  trip_duration_sec : ℚ
  trip_duration_min : ℚ
  distance_traveled_Km : ℚ
  KPH : ℚ
  wait_time_cost : ℚ
  distance_cost : ℚ
  total_fare_new : ℚ
  num_of_passengers : ℚ
  surge_applied : Bool
deriving DecidableEq

/-- Embeds `TaxiDataProcessor._classify_area` (data_processor.py 175-182). -/
def classify_area (lat : ℚ) : String :=
  if lat > 51.12 then "North"
  else if lat < 51.08 then "South"
  else "Center"

/-- Embeds `TaxiDataProcessor._classify_activity` (data_processor.py
184-191). -/
def classify_activity (speed : ℚ) : String :=
  if speed > 10 then "High"
  else if speed > 3 then "Medium"
  else "Low"

/-- Embeds `TaxiDataProcessor._classify_trip_duration` (data_processor.py
193-200). -/
def classify_trip_duration (duration : ℚ) : String :=
  if duration < 10 then "Short"
  else if duration < 30 then "Medium"
  else "Long"

/-- Embeds `TaxiDataProcessor._classify_price` (data_processor.py 202-214). -/
def classify_price (fare distance : ℚ) : String :=
  if distance > 0 then
    let price_per_km := fare / distance
    if price_per_km < 2 then "Low"
    else if price_per_km < 5 then "Medium"
    else if price_per_km < 10 then "High"
    else "Premium"
  else "Unknown"

/-- Embeds `TaxiDataProcessor._calculate_efficiency` (data_processor.py
216-220). -/
def calculate_efficiency (speed duration : ℚ) : ℚ :=
  let speed_score := min (speed / 60) 1
  let duration_score := max 0 (1 - (duration - 15) / 30)
  (speed_score + duration_score) / 2

/-- Embeds `DataInsightsParser.parse` (data_processor.py 18-26).  The stdlib
JSON decoder `json.loads` is an external collaborator, passed in as `loads`
(`none` models a raised JSONDecodeError); `ts` is the wall-clock timestamp
string `pd.Timestamp.now().isoformat()`. -/
def parseInsights (loads : String → Option PyVal) (ts : String)
    (text : String) : PyVal :=
  match loads text with
  | some v => v
  | none => .obj [("insights", .str text),
                  ("confidence", .num (7/10)),
                  ("processed_at", .str ts)]

/-- Embeds `str(row.get('randomized_id', idx))` (data_processor.py 98,
110). -/
def originalId (idx : Nat) (row : GPSRow) : String :=
  match row.randomized_id with
  | some s => s
  | none => toString idx

/-- Embeds the rule-based fallback GPS record built in the except-branch of
`process_gps_batch` (data_processor.py 109-120). -/
def gpsFallback (idx : Nat) (row : GPSRow) (err : String) : PyVal :=
  .obj [("original_id", .str (originalId idx row)),
        ("lat", .num row.lat),
        ("lng", .num row.lng),
        ("alt", .num row.alt),
        ("spd", .num row.spd),
        ("azm", .num row.azm),
        ("area_classification", .str (classify_area row.lat)),
        ("activity_level", .str (classify_activity row.spd)),
        ("road_type", .str "Unknown"),
        ("insights", .str ("Error processing: " ++ err))]

/-- Embeds the rule-based fallback taxi record built in the except-branch of
`process_taxi_batch` (data_processor.py 157-171). -/
def taxiFallback (row : TaxiRow) (err : String) : PyVal :=
  .obj [("trip_duration_sec", .num row.trip_duration_sec),
        ("trip_duration_min", .num row.trip_duration_min),
        ("distance_traveled_km", .num row.distance_traveled_Km),
        ("kph", .num row.KPH),
        ("wait_time_cost", .num row.wait_time_cost),
        ("distance_cost", .num row.distance_cost),
        ("total_fare_new", .num row.total_fare_new),
        ("num_of_passengers", .num row.num_of_passengers),
        ("surge_applied", .bool row.surge_applied),
        ("trip_category", .str (classify_trip_duration row.trip_duration_min)),
        ("price_category",
          .str (classify_price row.total_fare_new row.distance_traveled_Km)),
        ("efficiency_score",
          .num (calculate_efficiency row.KPH row.trip_duration_min)),
        ("insights", .str ("Error processing: " ++ err))]

/-- Embeds the try-branch of one iteration of `process_gps_batch`
(data_processor.py 85-105): the oracle call (LLMChain.run over the LLM: an
external collaborator taking the row index, whose prompt context string is
built from it, and the row; `Except.error` models a raised exception), the
response parse, and the six item-assignment merge steps. -/
def tryProcessGPS (oracle : Nat → GPSRow → Except String String)
    (loads : String → Option PyVal) (ts : String)
    (idx : Nat) (row : GPSRow) : Except String PyVal := do
  let text ← oracle idx row
  let result := parseInsights loads ts text
  let result ← pySetItem result "original_id" (.str (originalId idx row))
  let result ← pySetItem result "lat" (.num row.lat)
  let result ← pySetItem result "lng" (.num row.lng)
  let result ← pySetItem result "alt" (.num row.alt)
  let result ← pySetItem result "spd" (.num row.spd)
  let result ← pySetItem result "azm" (.num row.azm)
  return result

/-- Embeds one full iteration of the loop of `process_gps_batch`
(data_processor.py 84-120): the try-branch, with any raised exception caught
and replaced by the rule-based fallback record. -/
def processGPSRecord (oracle : Nat → GPSRow → Except String String)
    (loads : String → Option PyVal) (ts : String)
    (idx : Nat) (row : GPSRow) : PyVal :=
  match tryProcessGPS oracle loads ts idx row with
  | .ok r => r
  | .error e => gpsFallback idx row e

/-- Embeds `TaxiDataProcessor.process_gps_batch` (data_processor.py 80-122):
one appended result per input row, in input order, indexed by the dataframe
row index. -/
def process_gps_batch (oracle : Nat → GPSRow → Except String String)
    (loads : String → Option PyVal) (ts : String)
    (rows : List GPSRow) : List PyVal :=
  rows.enum.map (fun p => processGPSRecord oracle loads ts p.1 p.2)

/-- Embeds the try-branch of one iteration of `process_taxi_batch`
(data_processor.py 130-153): oracle call, response parse, and the nine
item-assignment merge steps. -/
def tryProcessTaxi (oracle : Nat → TaxiRow → Except String String)
    (loads : String → Option PyVal) (ts : String)
    (idx : Nat) (row : TaxiRow) : Except String PyVal := do
  let text ← oracle idx row
  let result := parseInsights loads ts text
  let result ← pySetItem result "trip_duration_sec" (.num row.trip_duration_sec)
  let result ← pySetItem result "trip_duration_min" (.num row.trip_duration_min)
  let result ← pySetItem result "distance_traveled_km" (.num row.distance_traveled_Km)
  let result ← pySetItem result "kph" (.num row.KPH)
  let result ← pySetItem result "wait_time_cost" (.num row.wait_time_cost)
  let result ← pySetItem result "distance_cost" (.num row.distance_cost)
  let result ← pySetItem result "total_fare_new" (.num row.total_fare_new)
  let result ← pySetItem result "num_of_passengers" (.num row.num_of_passengers)
  let result ← pySetItem result "surge_applied" (.bool row.surge_applied)
  return result

/-- Embeds one full iteration of the loop of `process_taxi_batch`
(data_processor.py 128-171). -/
def processTaxiRecord (oracle : Nat → TaxiRow → Except String String)
    (loads : String → Option PyVal) (ts : String)
    (idx : Nat) (row : TaxiRow) : PyVal :=
  match tryProcessTaxi oracle loads ts idx row with
  | .ok r => r
  | .error e => taxiFallback row e

/-- Embeds `TaxiDataProcessor.process_taxi_batch` (data_processor.py
124-173). -/
def process_taxi_batch (oracle : Nat → TaxiRow → Except String String)
    (loads : String → Option PyVal) (ts : String)
    (rows : List TaxiRow) : List PyVal :=
  rows.enum.map (fun p => processTaxiRecord oracle loads ts p.1 p.2)

/-- Embeds BATCH_SIZE from src/backend/config.py line 13. -/
def BATCH_SIZE : Nat := 1000

/-- Embeds Python `range(0, n, B)` as used by the batch loops of
`process_all_data` (data_processor.py 234, 242): the start offsets
0, B, 2B, ... below `n`.  (For B = 0, where Python `range` raises
ValueError, this returns the empty list; all batching claims assume a
positive batch size.) -/
def batchStarts (n B : Nat) : List Nat :=
  (List.range ((n + B - 1) / B)).map (fun k => k * B)

/-- Gives the list of batches cut by the loop of `process_all_data`:
`df.iloc[i:i+B]` is the slice of B elements (fewer at the end) starting at
offset i, for each start offset of `batchStarts`. -/
def batchesOf {γ : Type} (B : Nat) (xs : List γ) : List (List γ) :=
  (batchStarts xs.length B).map (fun i => (xs.drop i).take B)

/-- Embeds one of the two batch loops of `process_all_data`
(data_processor.py 232-246), abstracted over the per-batch processor: the
accumulated results list (extended once per batch) together with the number
of progress signals emitted (one logger.info per loop iteration). -/
def process_all_data {α β : Type} (B : Nat) (proc : List α → List β)
    (xs : List α) : List β × Nat :=
  (batchStarts xs.length B).foldl
    (fun acc i => (acc.1 ++ proc ((xs.drop i).take B), acc.2 + 1))
    ([], 0)

/-- Embeds a persisted processed_gps_data row (models.py 10-28), restricted
to the columns the aggregator reads. -/
structure GPSRecordDB where
  spd : ℚ
deriving DecidableEq

/-- Embeds a persisted processed_taxi_data row (models.py 30-52), restricted
to the columns the aggregator reads. -/
structure TaxiRecordDB where
  total_fare_new : ℚ
  trip_duration_min : ℚ
  distance_traveled_km : ℚ
  surge_applied : Bool
deriving DecidableEq

/-- Embeds the persisted corpus that `DatabaseService.calculate_aggregate_metrics`
scans: the full tables of processed GPS points and taxi trips. -/
structure Corpus where
  gps : List GPSRecordDB
  taxi : List TaxiRecordDB

/-- Embeds the local gps_count of calculate_aggregate_metrics
(database_service.py 180). -/
def gps_count (db : Corpus) : Nat := db.gps.length

/-- Embeds the local avg_speed of calculate_aggregate_metrics
(database_service.py 181-184): the speeds of GPS rows with spd > 0, averaged,
with the empty-list (falsy) case degrading to 0. -/
def avg_speed (db : Corpus) : ℚ :=
  let speeds := (db.gps.filter (fun r => r.spd > 0)).map (fun r => r.spd)
  if speeds = [] then 0 else speeds.sum / speeds.length

/-- Embeds the local taxi_count of calculate_aggregate_metrics
(database_service.py 187). -/
def taxi_count (db : Corpus) : Nat := db.taxi.length

/-- Embeds the local avg_fare of calculate_aggregate_metrics
(database_service.py 188-191). -/
def avg_fare (db : Corpus) : ℚ :=
  let fares := db.taxi.map (fun r => r.total_fare_new)
  if fares = [] then 0 else fares.sum / fares.length

/-- Embeds the local avg_duration of calculate_aggregate_metrics
(database_service.py 193-196). -/
def avg_duration (db : Corpus) : ℚ :=
  let durations := db.taxi.map (fun r => r.trip_duration_min)
  if durations = [] then 0 else durations.sum / durations.length

/-- Embeds the local avg_distance of calculate_aggregate_metrics
(database_service.py 198-201). -/
def avg_distance (db : Corpus) : ℚ :=
  let distances := db.taxi.map (fun r => r.distance_traveled_km)
  if distances = [] then 0 else distances.sum / distances.length

/-- Embeds the local surge_trips of calculate_aggregate_metrics
(database_service.py 203). -/
def surge_trips (db : Corpus) : Nat :=
  (db.taxi.filter (fun r => r.surge_applied)).length

/-- Embeds the local surge_percentage of calculate_aggregate_metrics
(database_service.py 204). -/
def surge_percentage (db : Corpus) : ℚ :=
  if taxi_count db > 0 then (surge_trips db : ℚ) / (taxi_count db : ℚ) * 100
  else 0

/-- Embeds the dict returned by `DatabaseService.calculate_aggregate_metrics`
(database_service.py 206-217).  Note the values are bare numbers. -/
def calculate_aggregate_metrics (db : Corpus) : List (String × PyVal) :=
  [("gps_points_count", .num (gps_count db : ℚ)),
   ("avg_speed_mps", .num (avg_speed db)),
   ("avg_speed_kmh", .num (avg_speed db * 3.6)),
   ("taxi_trips_count", .num (taxi_count db : ℚ)),
   ("avg_fare_usd", .num (avg_fare db)),
   ("avg_fare_tenge", .num (avg_fare db * 541)),
   ("avg_trip_duration_min", .num (avg_duration db)),
   ("avg_distance_km", .num (avg_distance db)),
   ("surge_percentage", .num (surge_percentage db)),
   ("price_per_km_tenge",
     .num (if avg_distance db > 0 then avg_fare db / avg_distance db * 541
           else 0))]

/-- Embeds `metric_data.get(key)` / `metric_data.get(key, default)` as used
by `save_analytics_metrics` (database_service.py 84-86): returns the looked
up value on a dict and raises AttributeError on any non-dict value. -/
def metricGet (md : PyVal) (key : String) (dflt : Option PyVal) :
    Except String (Option PyVal) :=
  match md with
  | .obj fields =>
      .ok (match fields.lookup key with
           | some v => some v
           | none => dflt)
  | _ => .error "AttributeError: get called on non-dict value"

/-- Embeds an analytics_metrics row as constructed by
`save_analytics_metrics` (database_service.py 82-88, models.py 54-62);
`calculated_at` is external wall-clock time and not modelled. -/
structure AnalyticsMetricsRow where
  metric_name : String
  metric_value : Option PyVal
  metric_type : Option PyVal
  description : Option PyVal

/-- Embeds the try-branch of one iteration of `save_analytics_metrics`
(database_service.py 82-91): building the row from the metric payload. -/
def saveMetricRecord (mName : String) (md : PyVal) :
    Except String AnalyticsMetricsRow := do
  let v ← metricGet md "value" none
  let t ← metricGet md "type" (some (.str "CALCULATED"))
  let d ← metricGet md "description" (some (.str ""))
  return ⟨mName, v, t, d⟩

/-- Embeds `DatabaseService.save_analytics_metrics` (database_service.py
76-98): iterates the metric dict; a row whose construction raises is logged
and skipped; returns the added rows and saved_count. -/
def save_analytics_metrics (metrics : List (String × PyVal)) :
    List AnalyticsMetricsRow × Nat :=
  metrics.foldl
    (fun acc p =>
      match saveMetricRecord p.1 p.2 with
      | .ok rec => (acc.1 ++ [rec], acc.2 + 1)
      | .error _ => acc)
    ([], 0)

/-- Written from the spec wording of claim C7 (spec.md section 4.1): the
price-tier rule stated over the sign of distance_km with the rate
thresholds 2, 5, 10. -/
def priceTierSpec (fare distance_km : ℚ) : String :=
  if distance_km ≤ 0 then "Unknown"
  else
    let rate := fare / distance_km
    if rate < 2 then "Low"
    else if rate < 5 then "Medium"
    else if rate < 10 then "High"
    else "Premium"

/-- Written from the spec wording of claim C2 (spec.md section 4.1): the
efficiency formula (min(speed/60, 1.0) + max(0, 1 - (duration - 15)/30)) / 2. -/
def efficiencySpecFormula (speed_kph duration_min : ℚ) : ℚ :=
  (min (speed_kph / 60) 1 + max 0 (1 - (duration_min - 15) / 30)) / 2

/-- Written from the spec wording of claim C3: the mean of a list of
rationals, 0 when the list is empty. -/
def listMean (l : List ℚ) : ℚ :=
  if l = [] then 0 else l.sum / l.length

end Decentrathon

namespace Decentrathon

/-- Computation rule for monadic bind on a successful Except value. -/
lemma exBindOk {ε α β : Type} (a : α) (f : α → Except ε β) :
    (Except.ok a : Except ε α) >>= f = f a := rfl

/-- Computation rule for monadic bind on a failed Except value. -/
lemma exBindError {ε α β : Type} (e : ε) (f : α → Except ε β) :
    (Except.error e : Except ε α) >>= f = .error e := rfl

/-- C7: for every fare and distance, classify_price agrees with the
spec-side price-tier rule (Unknown iff distance_km ≤ 0, then the rate
thresholds 2, 5, 10), and in particular price_tier(10, 0) = Unknown and
price_tier(4, 2) = Medium. -/
theorem C7_price_tier :
    (∀ fare distance : ℚ, classify_price fare distance = priceTierSpec fare distance)
    ∧ classify_price 10 0 = "Unknown" ∧ classify_price 4 2 = "Medium" := by
  refine ⟨fun fare distance => ?_, by norm_num [classify_price],
    by norm_num [classify_price]⟩
  unfold classify_price priceTierSpec
  rcases le_or_lt distance 0 with h | h
  · rw [if_neg (not_lt.mpr h), if_pos h]
  · rw [if_pos h, if_neg (not_le.mpr h)]

/-- C8: classify_area partitions the rationals into
(-inf, 51.08) mapping to South, the closed interval from 51.08 to 51.12
mapping to Center, and (51.12, inf) mapping to North; both boundary values
map to Center. -/
theorem C8_area_partition :
    (∀ lat : ℚ,
      (lat < 51.08 ∧ classify_area lat = "South")
      ∨ (51.08 ≤ lat ∧ lat ≤ 51.12 ∧ classify_area lat = "Center")
      ∨ (51.12 < lat ∧ classify_area lat = "North"))
    ∧ classify_area 51.08 = "Center" ∧ classify_area 51.12 = "Center" := by
  refine ⟨fun lat => ?_, by norm_num [classify_area], by norm_num [classify_area]⟩
  unfold classify_area
  rcases lt_or_le lat 51.08 with h | h
  · left
    refine ⟨h, ?_⟩
    have hn : ¬(lat > 51.12) :=
      not_lt.mpr (le_of_lt (h.trans (by norm_num)))
    rw [if_neg hn, if_pos h]
  · rcases le_or_lt lat 51.12 with h2 | h2
    · right; left
      exact ⟨h, h2, by rw [if_neg (not_lt.mpr h2), if_neg (not_lt.mpr h)]⟩
    · right; right
      exact ⟨h2, by rw [if_pos h2]⟩

/-- C2 counterexample: at speed_kph = 60 and duration_min = 0 the efficiency
score of the code is 5/4, outside the interval [0, 1] asserted by the claim
(the duration score max(0, 1 - (0 - 15)/30) = 3/2 is not clamped above). -/
theorem C2_efficiency_counterexample :
    calculate_efficiency 60 0 = 5/4 ∧ ¬(calculate_efficiency 60 0 ≤ 1) := by
  constructor
  · norm_num [calculate_efficiency, min_def, max_def]
  · norm_num [calculate_efficiency, min_def, max_def]

/-- C2 amended: calculate_efficiency equals the spec formula
(min(speed/60, 1) + max(0, 1 - (duration - 15)/30)) / 2 for all rational
inputs, and its value lies in [0, 1] whenever speed_kph ≥ 0 and
duration_min ≥ 15 (outside that region it can leave the interval, as the
counterexample shows). -/
theorem C2_efficiency_amended :
    (∀ speed duration : ℚ,
      calculate_efficiency speed duration = efficiencySpecFormula speed duration)
    ∧ ∀ speed duration : ℚ, 0 ≤ speed → 15 ≤ duration →
        0 ≤ calculate_efficiency speed duration
        ∧ calculate_efficiency speed duration ≤ 1 := by
  constructor
  · intro s d; rfl
  · intro s d hs hd
    simp only [calculate_efficiency]
    have h1 : (0:ℚ) ≤ min (s / 60) 1 := le_min (by positivity) zero_le_one
    have h2 : min (s / 60) 1 ≤ 1 := min_le_right _ _
    have h3 : (0:ℚ) ≤ max 0 (1 - (d - 15) / 30) := le_max_left _ _
    have h4 : max 0 (1 - (d - 15) / 30) ≤ 1 := by
      apply max_le (by norm_num)
      have hq : (0:ℚ) ≤ (d - 15) / 30 := div_nonneg (by linarith) (by norm_num)
      linarith
    constructor
    · linarith
    · linarith

/-- C2 witness: the amended bound applied at speed_kph = 30,
duration_min = 20. -/
theorem C2_efficiency_amended_witness :
    0 ≤ calculate_efficiency 30 20 ∧ calculate_efficiency 30 20 ≤ 1 :=
  C2_efficiency_amended.2 30 20 (by decide) (by decide)

/-- C5: when the JSON decode of the oracle response raises, parse returns
(it never raises) the minimal wrapper dict carrying the raw text verbatim
under the insights key, confidence 0.7 and the timestamp; the raw text is
recoverable from the insights field of that wrapper and also of the full
record emitted by the enrichment engine after the merge step. -/
theorem C5_parse_graceful_degradation (loads : String → Option PyVal)
    (ts text : String) (h : loads text = none) :
    parseInsights loads ts text =
      .obj [("insights", .str text),
            ("confidence", .num (7/10)),
            ("processed_at", .str ts)]
    ∧ pyLookup "insights" (parseInsights loads ts text) = some (.str text)
    ∧ ∀ (oracle : Nat → GPSRow → Except String String) (idx : Nat) (row : GPSRow),
        oracle idx row = .ok text →
        pyLookup "insights" (processGPSRecord oracle loads ts idx row) =
          some (.str text) := by
  refine ⟨?_, ?_, ?_⟩
  · simp [parseInsights, h]
  · simp only [parseInsights, h]
    rfl
  · intro oracle idx row hor
    simp only [processGPSRecord, tryProcessGPS, hor, exBindOk]
    simp only [parseInsights, h]
    rfl

/-- C5 witness: the degradation applied to the concrete non-JSON response
"hello world" with an always-failing decoder. -/
theorem C5_parse_graceful_degradation_witness :
    parseInsights (fun _ => none) "2024-01-01T00:00:00" "hello world" =
      .obj [("insights", .str "hello world"),
            ("confidence", .num (7/10)),
            ("processed_at", .str "2024-01-01T00:00:00")] :=
  (C5_parse_graceful_degradation (fun _ => none) "2024-01-01T00:00:00"
    "hello world" rfl).1

/-- C9: when the oracle call succeeds at the transport level and its
response decodes as valid JSON whose top-level value is not an object, the
per-record merge step raises TypeError, the exception is caught, and the
engine emits the rule-based fallback record (not a wrapped oracle
result). -/
theorem C9_nonobject_json_fallback
    (oracle : Nat → GPSRow → Except String String)
    (loads : String → Option PyVal) (ts : String) (idx : Nat) (row : GPSRow)
    (text : String) (j : PyVal)
    (hor : oracle idx row = .ok text) (hl : loads text = some j)
    (hobj : ∀ fields, j ≠ .obj fields) :
    processGPSRecord oracle loads ts idx row =
      gpsFallback idx row "TypeError: item assignment on non-dict value" := by
  simp only [processGPSRecord, tryProcessGPS, hor, exBindOk]
  simp only [parseInsights, hl]
  cases j with
  | obj fields => exact absurd rfl (hobj fields)
  | num q => rfl
  | str s => rfl
  | bool b => rfl
  | arr es => rfl

/-- C9 witness: an oracle returning the JSON array text whose decode is the
array value [1, 2] makes the engine emit the fallback record. -/
theorem C9_nonobject_json_fallback_witness :
    processGPSRecord (fun _ _ => .ok "[1, 2]")
      (fun _ => some (.arr [.num 1, .num 2])) "t" 0 ⟨some "a", 1, 2, 3, 4, 5⟩ =
    gpsFallback 0 ⟨some "a", 1, 2, 3, 4, 5⟩
      "TypeError: item assignment on non-dict value" :=
  C9_nonobject_json_fallback (fun _ _ => .ok "[1, 2]")
    (fun _ => some (.arr [.num 1, .num 2])) "t" 0 ⟨some "a", 1, 2, 3, 4, 5⟩
    "[1, 2]" (.arr [.num 1, .num 2]) rfl rfl
    (fun _ h => PyVal.noConfusion h)

/-- One iteration of the gps loop under a raised oracle exception produces
the rule-based fallback record. -/
lemma processGPSRecord_error (oracle : Nat → GPSRow → Except String String)
    (loads : String → Option PyVal) (ts : String) (idx : Nat) (row : GPSRow)
    (e : String) (h : oracle idx row = .error e) :
    processGPSRecord oracle loads ts idx row = gpsFallback idx row e := by
  simp only [processGPSRecord, tryProcessGPS, h, exBindError]

/-- One iteration of the taxi loop under a raised oracle exception produces
the rule-based fallback record. -/
lemma processTaxiRecord_error (oracle : Nat → TaxiRow → Except String String)
    (loads : String → Option PyVal) (ts : String) (idx : Nat) (row : TaxiRow)
    (e : String) (h : oracle idx row = .error e) :
    processTaxiRecord oracle loads ts idx row = taxiFallback row e := by
  simp only [processTaxiRecord, tryProcessTaxi, h, exBindError]

/-- C1: under an oracle that raises on every call, each batch processor
still emits exactly one record per input row, in input order: each record is
the rule-based fallback, whose classification fields come from the
classifier rules, whose GPS road_type is the literal Unknown, and whose
insights field is an explicit error description; no exception escapes the
batch (the processors are total functions). -/
theorem C1_oracle_failure_isolation
    (oracleG : Nat → GPSRow → Except String String)
    (oracleT : Nat → TaxiRow → Except String String)
    (errG : Nat → GPSRow → String) (errT : Nat → TaxiRow → String)
    (hG : ∀ i r, oracleG i r = .error (errG i r))
    (hT : ∀ i r, oracleT i r = .error (errT i r))
    (loads : String → Option PyVal) (ts : String)
    (gpsRows : List GPSRow) (taxiRows : List TaxiRow) :
    process_gps_batch oracleG loads ts gpsRows =
      gpsRows.enum.map (fun p => gpsFallback p.1 p.2 (errG p.1 p.2))
    ∧ (process_gps_batch oracleG loads ts gpsRows).length = gpsRows.length
    ∧ process_taxi_batch oracleT loads ts taxiRows =
      taxiRows.enum.map (fun p => taxiFallback p.2 (errT p.1 p.2))
    ∧ (process_taxi_batch oracleT loads ts taxiRows).length = taxiRows.length
    ∧ (∀ i r e,
        pyLookup "area_classification" (gpsFallback i r e) =
          some (.str (classify_area r.lat))
        ∧ pyLookup "activity_level" (gpsFallback i r e) =
          some (.str (classify_activity r.spd))
        ∧ pyLookup "road_type" (gpsFallback i r e) = some (.str "Unknown")
        ∧ pyLookup "insights" (gpsFallback i r e) =
          some (.str ("Error processing: " ++ e)))
    ∧ (∀ r e,
        pyLookup "trip_category" (taxiFallback r e) =
          some (.str (classify_trip_duration r.trip_duration_min))
        ∧ pyLookup "price_category" (taxiFallback r e) =
          some (.str (classify_price r.total_fare_new r.distance_traveled_Km))
        ∧ pyLookup "efficiency_score" (taxiFallback r e) =
          some (.num (calculate_efficiency r.KPH r.trip_duration_min))
        ∧ pyLookup "insights" (taxiFallback r e) =
          some (.str ("Error processing: " ++ e))) := by
  have hg : process_gps_batch oracleG loads ts gpsRows =
      gpsRows.enum.map (fun p => gpsFallback p.1 p.2 (errG p.1 p.2)) := by
    unfold process_gps_batch
    exact List.map_congr_left
      (fun p _ => processGPSRecord_error oracleG loads ts p.1 p.2 _ (hG p.1 p.2))
  have ht : process_taxi_batch oracleT loads ts taxiRows =
      taxiRows.enum.map (fun p => taxiFallback p.2 (errT p.1 p.2)) := by
    unfold process_taxi_batch
    exact List.map_congr_left
      (fun p _ => processTaxiRecord_error oracleT loads ts p.1 p.2 _ (hT p.1 p.2))
  refine ⟨hg, ?_, ht, ?_, ?_, ?_⟩
  · rw [hg, List.length_map, List.enum_length]
  · rw [ht, List.length_map, List.enum_length]
  · intro i r e
    exact ⟨rfl, rfl, rfl, rfl⟩
  · intro r e
    exact ⟨rfl, rfl, rfl, rfl⟩

/-- C1 witness: singleton batches under an oracle raising "boom" on every
call produce exactly the fallback records. -/
theorem C1_oracle_failure_isolation_witness :
    process_gps_batch (fun _ _ => .error "boom") (fun _ => none) "t"
      [⟨some "a", 1, 2, 3, 4, 5⟩] =
      [gpsFallback 0 ⟨some "a", 1, 2, 3, 4, 5⟩ "boom"]
    ∧ process_taxi_batch (fun _ _ => .error "boom") (fun _ => none) "t"
      [⟨60, 1, 2, 30, 1, 1, 5, 2, true⟩] =
      [taxiFallback ⟨60, 1, 2, 30, 1, 1, 5, 2, true⟩ "boom"] := by
  have h := C1_oracle_failure_isolation (fun _ _ => .error "boom")
    (fun _ _ => .error "boom") (fun _ _ => "boom") (fun _ _ => "boom")
    (fun _ _ => rfl) (fun _ _ => rfl) (fun _ => none) "t"
    [⟨some "a", 1, 2, 3, 4, 5⟩] [⟨60, 1, 2, 30, 1, 1, 5, 2, true⟩]
  exact ⟨h.1, h.2.2.1⟩

/-- C3: compute_aggregates exposes avg_speed_mps as the mean speed over GPS
points with speed > 0 (0 when that filtered set is empty), avg_speed_kmh as
avg_speed_mps times 3.6, avg_fare_tenge as avg_fare_usd times 541, and
price_per_km_tenge as avg_fare_tenge / avg_distance_km when
avg_distance_km > 0 and 0 otherwise; with zero trips avg_fare_usd,
surge_percentage and price_per_km_tenge are all 0 (the division-by-zero
cases are guarded, never raised: every aggregate is a total function). -/
theorem C3_aggregate_metrics (db : Corpus) :
    (calculate_aggregate_metrics db).lookup "avg_speed_mps" =
      some (.num (listMean
        ((db.gps.filter (fun r => r.spd > 0)).map (fun r => r.spd))))
    ∧ (calculate_aggregate_metrics db).lookup "avg_speed_kmh" =
      some (.num (avg_speed db * 3.6))
    ∧ (calculate_aggregate_metrics db).lookup "avg_fare_tenge" =
      some (.num (avg_fare db * 541))
    ∧ (calculate_aggregate_metrics db).lookup "price_per_km_tenge" =
      some (.num (if avg_distance db > 0
                  then (avg_fare db * 541) / avg_distance db else 0))
    ∧ (db.taxi = [] →
        avg_fare db = 0
        ∧ surge_percentage db = 0
        ∧ (calculate_aggregate_metrics db).lookup "price_per_km_tenge" =
          some (.num 0)) := by
  refine ⟨rfl, rfl, rfl, ?_, ?_⟩
  · show some (PyVal.num (if avg_distance db > 0
        then avg_fare db / avg_distance db * 541 else 0)) = _
    rw [div_mul_eq_mul_div]
  · intro htaxi
    have hd : avg_distance db = 0 := by simp [avg_distance, htaxi]
    refine ⟨by simp [avg_fare, htaxi], ?_, ?_⟩
    · simp [surge_percentage, taxi_count, htaxi]
    · show some (PyVal.num (if avg_distance db > 0
          then avg_fare db / avg_distance db * 541 else 0)) = _
      rw [hd]
      norm_num

/-- C3 witness: the zero-trip degradation at the empty corpus. -/
theorem C3_aggregate_metrics_witness :
    avg_fare ⟨[], []⟩ = 0 ∧ surge_percentage ⟨[], []⟩ = 0
    ∧ (calculate_aggregate_metrics ⟨[], []⟩).lookup "price_per_km_tenge" =
      some (.num 0) :=
  (C3_aggregate_metrics ⟨[], []⟩).2.2.2.2 rfl

/-- C10: the count of surge trips never exceeds the total trip count, hence
the surge_percentage value that compute_aggregates returns always lies in
[0, 100]. -/
theorem C10_surge_percentage_bounds (db : Corpus) :
    surge_trips db ≤ taxi_count db
    ∧ 0 ≤ surge_percentage db ∧ surge_percentage db ≤ 100
    ∧ (calculate_aggregate_metrics db).lookup "surge_percentage" =
      some (.num (surge_percentage db)) := by
  have hle : surge_trips db ≤ taxi_count db := List.length_filter_le _ _
  refine ⟨hle, ?_, ?_, rfl⟩
  · unfold surge_percentage
    split_ifs with h
    · positivity
    · exact le_refl 0
  · unfold surge_percentage
    split_ifs with h
    · have h1 : (surge_trips db : ℚ) ≤ (taxi_count db : ℚ) := by
        exact_mod_cast hle
      have h2 : (0:ℚ) < (taxi_count db : ℚ) := by exact_mod_cast h
      have h3 : (surge_trips db : ℚ) / (taxi_count db : ℚ) ≤ 1 :=
        (div_le_one h2).mpr h1
      linarith
    · norm_num

/-- C10 witness: the surge percentage bounds at a one-trip corpus whose
trip has surge pricing applied. -/
theorem C10_surge_percentage_bounds_witness :
    0 ≤ surge_percentage ⟨[], [⟨5, 10, 2, true⟩]⟩
    ∧ surge_percentage ⟨[], [⟨5, 10, 2, true⟩]⟩ ≤ 100 :=
  ⟨(C10_surge_percentage_bounds ⟨[], [⟨5, 10, 2, true⟩]⟩).2.1,
   (C10_surge_percentage_bounds ⟨[], [⟨5, 10, 2, true⟩]⟩).2.2.1⟩

/-- C4 (code bug): for every corpus, calculate_aggregate_metrics returns a
flat mapping of the 10 metric names to bare numbers, not to structures with
value/kind/description fields; consequently save_analytics_metrics, the
persistence boundary main.py pipes this mapping into, raises AttributeError
on each value, skips every row, and reports 0 rows saved. -/
theorem C4_metrics_shape_mismatch (db : Corpus) :
    (calculate_aggregate_metrics db).length = 10
    ∧ (∀ p ∈ calculate_aggregate_metrics db, ∃ q : ℚ, p.2 = PyVal.num q)
    ∧ save_analytics_metrics (calculate_aggregate_metrics db) = ([], 0) := by
  refine ⟨rfl, ?_, rfl⟩
  intro p hp
  simp only [calculate_aggregate_metrics, List.mem_cons,
    List.not_mem_nil, or_false] at hp
  rcases hp with rfl | rfl | rfl | rfl | rfl | rfl | rfl | rfl | rfl | rfl <;>
    exact ⟨_, rfl⟩

/-- With an empty input the batch loop performs no iteration. -/
lemma batchStarts_zero (B : Nat) (hB : 0 < B) : batchStarts 0 B = [] := by
  unfold batchStarts
  have h : (0 + B - 1) / B = 0 := Nat.div_eq_of_lt (by omega)
  rw [h]
  rfl

/-- Batching the empty record set yields no batches. -/
lemma batchesOf_nil {γ : Type} (B : Nat) (hB : 0 < B) :
    batchesOf B ([] : List γ) = [] := by
  unfold batchesOf
  rw [List.length_nil, batchStarts_zero B hB]
  rfl

/-- Unfolding step for the ceiling-division batch count: one more batch is
cut from a non-empty input. -/
lemma ceilDiv_succ (n B : Nat) (hB : 0 < B) (hn : 0 < n) :
    (n + B - 1) / B = ((n - B) + B - 1) / B + 1 := by
  rcases le_or_lt B n with h | h
  · have heq : n + B - 1 = ((n - B) + B - 1) + B := by omega
    rw [heq, Nat.add_div_right _ hB]
  · have h1 : (n + B - 1) / B = 1 := by
      apply Nat.div_eq_of_lt_le
      · omega
      · omega
    have h2 : ((n - B) + B - 1) / B = 0 := Nat.div_eq_of_lt (by omega)
    omega

/-- Unfolding step for the batch list: a non-empty input is cut into its
first B records followed by the batches of the rest. -/
lemma batchesOf_cons {γ : Type} (B : Nat) (hB : 0 < B) (xs : List γ)
    (hxs : xs ≠ []) :
    batchesOf B xs = xs.take B :: batchesOf B (xs.drop B) := by
  have hn : 0 < xs.length := List.length_pos.mpr hxs
  unfold batchesOf batchStarts
  rw [List.length_drop, ceilDiv_succ xs.length B hB hn,
    List.range_succ_eq_map]
  simp only [List.map_cons, List.map_map]
  congr 1
  · simp
  · apply List.map_congr_left
    intro k _
    simp only [Function.comp_apply]
    rw [List.drop_drop, Nat.succ_mul, Nat.add_comm]

/-- The batches concatenate back to the input: batching drops and reorders
nothing. -/
lemma batchesOf_flatten {γ : Type} (B : Nat) (hB : 0 < B) (xs : List γ) :
    (batchesOf B xs).flatten = xs := by
  have key : ∀ (n : Nat) (ys : List γ), ys.length ≤ n →
      (batchesOf B ys).flatten = ys := by
    intro n
    induction n with
    | zero =>
        intro ys hy
        have he : ys = [] := List.eq_nil_of_length_eq_zero (Nat.le_zero.mp hy)
        subst he
        rw [batchesOf_nil B hB]
        rfl
    | succ n ih =>
        intro ys hy
        rcases eq_or_ne ys [] with rfl | hne
        · rw [batchesOf_nil B hB]; rfl
        · rw [batchesOf_cons B hB ys hne, List.flatten_cons,
            ih (ys.drop B) (by rw [List.length_drop]; omega),
            List.take_append_drop]
  exact key xs.length xs le_rfl

/-- Every batch except possibly the last has exactly the configured size. -/
lemma batchesOf_get_length {γ : Type} (B : Nat) (hB : 0 < B) (xs : List γ)
    (i : Nat) (h : i + 1 < (batchesOf B xs).length) :
    ((batchesOf B xs).get ⟨i, Nat.lt_of_succ_lt h⟩).length = B := by
  have hlen : (batchesOf B xs).length = (xs.length + B - 1) / B := by
    simp [batchesOf, batchStarts]
  have hel : (batchesOf B xs).get ⟨i, Nat.lt_of_succ_lt h⟩ =
      (xs.drop (i * B)).take B := by
    simp only [batchesOf, batchStarts, List.get_eq_getElem, List.getElem_map,
      List.getElem_range]
  rw [hlen] at h
  have hc : i + 2 ≤ (xs.length + B - 1) / B := by omega
  have hmul : (i + 2) * B ≤ xs.length + B - 1 :=
    (Nat.le_div_iff_mul_le hB).mp hc
  have hexp : (i + 2) * B = i * B + 2 * B := by ring
  rw [hexp] at hmul
  rw [hel, List.length_take, List.length_drop]
  apply Nat.min_eq_left
  set m1 := i * B with hm
  omega

/-- No batch exceeds the configured size. -/
lemma batchesOf_length_le {γ : Type} (B : Nat) (xs : List γ) :
    ∀ l ∈ batchesOf B xs, l.length ≤ B := by
  intro l hl
  simp only [batchesOf, List.map_map, List.mem_map] at hl
  obtain ⟨i, _, rfl⟩ := hl
  simp only [Function.comp_apply, List.length_take]
  exact min_le_left _ _

/-- The batch loop equals mapping the per-batch processor over the batch
list, concatenating, and signalling progress once per batch. -/
lemma process_all_data_eq {α β : Type} (B : Nat) (proc : List α → List β)
    (xs : List α) :
    process_all_data B proc xs =
      (((batchesOf B xs).map proc).flatten, (batchesOf B xs).length) := by
  have key : ∀ (starts : List Nat) (l : List β) (c : Nat),
      starts.foldl
        (fun acc i => (acc.1 ++ proc ((xs.drop i).take B), acc.2 + 1)) (l, c)
      = (l ++ ((starts.map (fun i => (xs.drop i).take B)).map proc).flatten,
          c + starts.length) := by
    intro starts
    induction starts with
    | nil => intro l c; simp
    | cons s rest ih =>
        intro l c
        simp only [List.foldl_cons, List.map_cons, List.flatten_cons]
        rw [ih (l ++ proc ((xs.drop s).take B)) (c + 1), List.append_assoc]
        congr 1
        simp [List.length_cons]
        omega
  unfold process_all_data
  rw [key]
  simp [batchesOf, List.length_map]

/-- C6: for every positive batch size the batch driver cuts the input into
contiguous, non-overlapping, order-preserving slices whose concatenation is
the full input, with every batch of the configured size except possibly a
shorter final one; it processes the batches in sequence and emits exactly
one progress signal per batch; in particular 2500 records at batch size 1000
give exactly the 3 batches of sizes 1000, 1000, 500 with progress signalled
3 times. -/
theorem C6_batch_driver {γ : Type} (B : Nat) (hB : 0 < B) (xs : List γ) :
    (batchesOf B xs).flatten = xs
    ∧ (∀ i (h : i + 1 < (batchesOf B xs).length),
        ((batchesOf B xs).get ⟨i, Nat.lt_of_succ_lt h⟩).length = B)
    ∧ (∀ l ∈ batchesOf B xs, l.length ≤ B)
    ∧ (∀ (β : Type) (proc : List γ → List β),
        process_all_data B proc xs =
          (((batchesOf B xs).map proc).flatten, (batchesOf B xs).length))
    ∧ (xs.length = 2500 → B = 1000 →
        (batchesOf B xs).map List.length = [1000, 1000, 500]
        ∧ (process_all_data B (fun l => l) xs).2 = 3) := by
  refine ⟨batchesOf_flatten B hB xs,
    fun i h => batchesOf_get_length B hB xs i h,
    batchesOf_length_le B xs,
    fun β proc => process_all_data_eq B proc xs, ?_⟩
  intro hlen hBe
  subst hBe
  have h0 : xs ≠ [] := by
    intro he; rw [he] at hlen; simp at hlen
  have e1 : batchesOf 1000 xs = xs.take 1000 :: batchesOf 1000 (xs.drop 1000) :=
    batchesOf_cons 1000 (by norm_num) xs h0
  have l1 : (xs.drop 1000).length = 1500 := by
    rw [List.length_drop, hlen]
  have h1 : xs.drop 1000 ≠ [] := by
    intro he; rw [he] at l1; simp at l1
  have e2 : batchesOf 1000 (xs.drop 1000) =
      (xs.drop 1000).take 1000 :: batchesOf 1000 ((xs.drop 1000).drop 1000) :=
    batchesOf_cons 1000 (by norm_num) (xs.drop 1000) h1
  have l2 : ((xs.drop 1000).drop 1000).length = 500 := by
    rw [List.length_drop, l1]
  have h2 : (xs.drop 1000).drop 1000 ≠ [] := by
    intro he; rw [he] at l2; simp at l2
  have e3 : batchesOf 1000 ((xs.drop 1000).drop 1000) =
      ((xs.drop 1000).drop 1000).take 1000 ::
        batchesOf 1000 (((xs.drop 1000).drop 1000).drop 1000) :=
    batchesOf_cons 1000 (by norm_num) ((xs.drop 1000).drop 1000) h2
  have l3 : (((xs.drop 1000).drop 1000).drop 1000).length = 0 := by
    rw [List.length_drop, l2]
  have e4 : batchesOf 1000 (((xs.drop 1000).drop 1000).drop 1000) = [] := by
    rw [List.eq_nil_of_length_eq_zero l3]
    exact batchesOf_nil 1000 (by norm_num)
  constructor
  · rw [e1, e2, e3, e4]
    simp only [List.map_cons, List.map_nil, List.length_take, hlen, l1, l2]
    norm_num
  · rw [process_all_data_eq 1000 (fun l => l) xs]
    show (batchesOf 1000 xs).length = 3
    rw [e1, e2, e3, e4]
    rfl

/-- C6 witness: the batch shape and progress count at a concrete input of
2500 records with the configured batch size 1000. -/
theorem C6_batch_driver_witness :
    (batchesOf 1000 (List.replicate 2500 (0 : Nat))).map List.length =
      [1000, 1000, 500]
    ∧ (process_all_data 1000 (fun l => l) (List.replicate 2500 (0 : Nat))).2 = 3 :=
  (C6_batch_driver 1000 (by decide) (List.replicate 2500 0)).2.2.2.2
    (List.length_replicate 2500 0) rfl

end Decentrathon
